import Mathlib

/-!
Shallow embedding of the `crestron_home` Home Assistant custom integration
(`custom_components/crestron_home/`): the API client (`api.py`), the data
update coordinator (`coordinator.py`), the device manager
(`device_manager.py`), and the constants (`const.py`).

Modelling conventions:
* Python strings are `List Char` (`Str`); `str.lower`, `startswith`,
  `endswith`, `in` (substring), and `strip` are given executable models.
* Python `float` time (`time.time()`) is modelled as exact integer seconds
  (`Int`); the float arithmetic in the level conversions is modelled as exact
  rational arithmetic on integers, with Python's `round` (half-to-even)
  modelled by `pyRound`.
* `Optional`/absent dict keys are `Option`; Python truthiness of an optional
  string is `pyTruthyKey`.
* Network I/O is modelled by passing the response a call would receive as an
  explicit argument, and counting the calls a code path issues.
-/

namespace CrestronHome

/-- Python strings, modelled as lists of characters. -/
abbrev Str := List Char

/-- `str.lower()` (ASCII case folding, as `Char.toLower`). -/
def lowerStr (s : Str) : Str := s.map Char.toLower

/-- `a.startswith(p)` : `p` is a prefix of `a`. -/
def startsWithL : Str → Str → Bool
  | [], _ => true
  | _ :: _, [] => false
  | c :: p, d :: s => c == d && startsWithL p s

/-- `a.endswith(p)` : `p` is a suffix of `a`. -/
def endsWithL (p s : Str) : Bool := startsWithL p.reverse s.reverse

/-- Python `p in s` : `p` occurs contiguously in `s` (the empty string
occurs in every string). -/
def containsL (p : Str) : Str → Bool
  | [] => startsWithL p []
  | c :: s => startsWithL p (c :: s) || containsL p s

/-! ## Constants (`const.py`) -/

/-- `CRESTRON_MAX_LEVEL: Final = 65535` -/
def CRESTRON_MAX_LEVEL : Nat := 65535

/-- `CRESTRON_SESSION_TIMEOUT: Final = 9 * 60` (seconds). -/
def CRESTRON_SESSION_TIMEOUT : Nat := 9 * 60

/-! ## Level conversions (`api.py`, `crestron_to_percentage` /
`percentage_to_crestron`)

Python's `round` rounds half to even; on the nonnegative rational
`num / den` it is `pyRound num den`. -/

/-- Python `round(num / den)` for natural `num`, positive `den`:
round half to even. -/
def pyRound (num den : Nat) : Nat :=
  if 2 * (num % den) < den then num / den
  else if den < 2 * (num % den) then num / den + 1
  else if (num / den) % 2 = 0 then num / den else num / den + 1

/-- `CrestronClient.crestron_to_percentage`: `0` for `value <= 0`, else
`round((value / CRESTRON_MAX_LEVEL) * 100)` (exact-rational model of the
float arithmetic). -/
def crestron_to_percentage (value : Nat) : Nat :=
  if value ≤ 0 then 0 else pyRound (value * 100) CRESTRON_MAX_LEVEL

/-- `CrestronClient.percentage_to_crestron`: `0` for `value <= 0`, else
`round((CRESTRON_MAX_LEVEL * value) / 100)`. -/
def percentage_to_crestron (value : Nat) : Nat :=
  if value ≤ 0 then 0 else pyRound (CRESTRON_MAX_LEVEL * value) 100

/-! ## Authentication state (`api.py`, `CrestronClient.login` /
`CrestronClient._api_request`) -/

/-- The client's cached-session state: `self.auth_key` (initially `None`)
and `self.last_login` (initially `0`, a `time.time()` value). -/
structure ClientAuthState where
  auth_key : Option Str
  last_login : Int
deriving DecidableEq

/-- Python truthiness of the `Optional[str]` field `self.auth_key`:
`None` and the empty string are falsy. -/
def pyTruthyKey : Option Str → Bool
  | none => false
  | some s => !s.isEmpty

/-- The guard of `login`: `self.auth_key and
(current_time - self.last_login) < CRESTRON_SESSION_TIMEOUT`. -/
def sessionValid (st : ClientAuthState) (now : Int) : Bool :=
  pyTruthyKey st.auth_key &&
    decide (now - st.last_login < (CRESTRON_SESSION_TIMEOUT : Int))

/-- Errors raised by the client (`CrestronApiError` hierarchy). -/
inductive ApiErr
  | auth
  | conn
  | api
deriving DecidableEq

/-- The response the `/login` HTTP exchange would deliver, were it issued. -/
inductive LoginResp
  /-- 2xx with a JSON body; `authkey` is `data.get("authkey")`. -/
  | ok (authkey : Option Str)
  /-- `ClientConnectorError` -/
  | connErr
  /-- `ClientResponseError` (e.g. 401 from `raise_for_status`) -/
  | respErr
  /-- any other exception -/
  | other
deriving DecidableEq

/-- Result of running `login`: the new client state, how many network login
exchanges were issued, and the outcome (`.ok` = normal return). -/
structure LoginRun where
  state : ClientAuthState
  networkCalls : Nat
  outcome : Except ApiErr Unit

/-- `CrestronClient.login`, with the pending network response passed
explicitly. If the session is still valid the function returns at once
with no network call. Otherwise it performs the exchange: on a body with a
truthy `authkey` it stores the key and `last_login := now`; on a body
without one it stores the (falsy) key, leaves `last_login`, and raises —
the in-`try` `CrestronAuthError` is re-raised by the blanket
`except Exception` clause as a `CrestronApiError`. -/
def loginRun (st : ClientAuthState) (now : Int) (resp : LoginResp) : LoginRun :=
  if sessionValid st now then ⟨st, 0, .ok ()⟩
  else
    match resp with
    | .ok k =>
        if pyTruthyKey k then ⟨⟨k, now⟩, 1, .ok ()⟩
        else ⟨⟨k, st.last_login⟩, 1, .error .api⟩
    | .connErr => ⟨st, 1, .error .conn⟩
    | .respErr => ⟨st, 1, .error .auth⟩
    | .other => ⟨st, 1, .error .api⟩

/-- The response the authenticated endpoint request would deliver. -/
inductive ReqResp
  /-- 2xx with a JSON body (left abstract). -/
  | ok
  /-- `ClientResponseError` with this HTTP status (from `raise_for_status`). -/
  | httpErr (status : Nat)
  /-- any other exception -/
  | other
deriving DecidableEq

/-- Result of `_api_request`: new state, number of endpoint HTTP requests
issued, and the outcome. -/
structure ApiRequestRun where
  state : ClientAuthState
  requests : Nat
  outcome : Except ApiErr ReqResp

/-- `CrestronClient._api_request`: first `await self.login()`; on login
failure the error propagates with no endpoint request. Then
`if not self.auth_key: raise CrestronAuthError`. Then exactly one request
is issued; a `ClientResponseError` with status 401 clears `auth_key` and
`last_login` and raises `CrestronAuthError`; any other HTTP error or
exception raises `CrestronApiError`. No path retries the request. -/
def apiRequest (st : ClientAuthState) (now : Int) (lresp : LoginResp)
    (rresp : ReqResp) : ApiRequestRun :=
  let lr := loginRun st now lresp
  match lr.outcome with
  | .error e => ⟨lr.state, 0, .error e⟩
  | .ok () =>
      if pyTruthyKey lr.state.auth_key then
        match rresp with
        | .ok => ⟨lr.state, 1, .ok .ok⟩
        | .httpErr status =>
            if status = 401 then ⟨⟨none, 0⟩, 1, .error .auth⟩
            else ⟨lr.state, 1, .error .api⟩
        | .other => ⟨lr.state, 1, .error .api⟩
      else ⟨lr.state, 0, .error .auth⟩

/-! ## String constants used by the pipeline -/

def dimmerStr : Str := "Dimmer".toList
def switchStr : Str := "Switch".toList
def shadeSubStr : Str := "Shade".toList
def sceneCapStr : Str := "Scene".toList
def lightStr : Str := "light".toList
def shadeStr : Str := "shade".toList
def sceneStr : Str := "scene".toList
def binarySensorStr : Str := "binary_sensor".toList
def sensorStr : Str := "sensor".toList
def onlineStr : Str := "online".toList
def naStr : Str := "n/a".toList
def circadianStr : Str := "circadian".toList
def occupancyStr : Str := "OccupancySensor".toList
def doorSensorStr : Str := "DoorSensor".toList
def photoSensorStr : Str := "PhotoSensor".toList
def unavailableStr : Str := "Unavailable".toList
def closedStr : Str := "Closed".toList
def normalStr : Str := "Normal".toList
def percentStr : Str := "%".toList

/-! ## Ignored-name pattern matcher (`api.py` / `device_manager.py`,
`_matches_ignored_pattern`) -/

/-- The body of the pattern loop, on the already-lowercased `name` and
`device_type`: `%x%` means contains, `%x` means ends-with, `x%` means
starts-with, bare `x` means exact equality, each against name OR type. -/
def matchOnePattern (n t pat : Str) : Bool :=
  if startsWithL percentStr (lowerStr pat) && endsWithL percentStr (lowerStr pat) then
    containsL (((lowerStr pat).drop 1).dropLast) n ||
      containsL (((lowerStr pat).drop 1).dropLast) t
  else if startsWithL percentStr (lowerStr pat) then
    endsWithL ((lowerStr pat).drop 1) n || endsWithL ((lowerStr pat).drop 1) t
  else if endsWithL percentStr (lowerStr pat) then
    startsWithL (lowerStr pat).dropLast n || startsWithL (lowerStr pat).dropLast t
  else n == lowerStr pat || t == lowerStr pat

/-- `_matches_ignored_pattern(name, device_type, ignored_device_names)`:
lowercases both subjects, then returns `True` on the first pattern that
matches (a `for` loop with early `return True`, i.e. `any`). -/
def matchesIgnoredPattern (name device_type : Str) (patterns : List Str) : Bool :=
  patterns.any (matchOnePattern (lowerStr name) (lowerStr device_type))

/-- Restatement of the spec's pattern grammar for one pattern, following the
spec's words: case-insensitive; a pattern wrapped in `%...%` matches iff its
interior is a substring of name or of type; a pattern with only a leading `%`
matches iff name or type ends with the remainder; a pattern with only a
trailing `%` matches iff name or type starts with the remainder; a bare
pattern matches iff it equals name or type exactly. -/
def specPatternMatches (pat name device_type : Str) : Prop :=
  if startsWithL percentStr (lowerStr pat) && endsWithL percentStr (lowerStr pat) then
    containsL (((lowerStr pat).drop 1).dropLast) (lowerStr name) = true ∨
      containsL (((lowerStr pat).drop 1).dropLast) (lowerStr device_type) = true
  else if startsWithL percentStr (lowerStr pat) then
    endsWithL ((lowerStr pat).drop 1) (lowerStr name) = true ∨
      endsWithL ((lowerStr pat).drop 1) (lowerStr device_type) = true
  else if endsWithL percentStr (lowerStr pat) then
    startsWithL (lowerStr pat).dropLast (lowerStr name) = true ∨
      startsWithL (lowerStr pat).dropLast (lowerStr device_type) = true
  else lowerStr name = lowerStr pat ∨ lowerStr device_type = lowerStr pat

/-! ## Raw payloads (`/rooms`, `/scenes`, `/devices`, `/shades`, `/sensors`) -/

/-- An entry of the `/rooms` payload. -/
structure RawRoom where
  id : Nat
  name : Str
deriving DecidableEq

/-- An entry of the `/devices` payload. `Option` fields model keys Python
reads with `.get` and a falsy default. -/
structure RawDevice where
  id : Nat
  roomId : Option Nat
  name : Str
  type : Option Str
  subType : Option Str
  level : Nat
  status : Bool
  connectionStatus : Option Str
deriving DecidableEq

/-- An entry of the `/shades` payload. -/
structure RawShade where
  id : Nat
  position : Nat
deriving DecidableEq

/-- An entry of the `/scenes` payload. -/
structure RawScene where
  id : Nat
  name : Str
  roomId : Option Nat
  type : Option Str
  status : Bool
deriving DecidableEq

/-- An entry of the `/sensors` payload. -/
structure RawSensor where
  id : Nat
  name : Str
  roomId : Option Nat
  subType : Option Str
  presence : Option Str
  door_status : Option Str
  battery_level : Option Str
  level : Nat
  connectionStatus : Option Str
deriving DecidableEq

/-- Python truthiness of an optional number (`None` and `0` are falsy). -/
def pyTruthyNum : Option Nat → Bool
  | none => false
  | some n => !(n == 0)

/-- `next((r.get("name", "") for r in rooms if r.get("id") == rid), "")`. -/
def roomNameFor (rooms : List RawRoom) (rid : Option Nat) : Str :=
  match rooms.find? (fun r => some r.id == rid) with
  | some r => r.name
  | none => []

/-- Python `str.strip()`: drop leading and trailing whitespace. -/
def pyStrip (s : Str) : Str :=
  ((s.dropWhile Char.isWhitespace).reverse.dropWhile Char.isWhitespace).reverse

/-! ## `CrestronClient.get_devices` -/

/-- `device.get("subType") or device.get("type", "")`: prefer `subType`
when truthy (present and non-empty), else fall back to `type`. -/
def deviceTypeResolved (d : RawDevice) : Str :=
  match d.subType with
  | some s => if s.isEmpty then d.type.getD [] else s
  | none => d.type.getD []

/-- The fixed vendor-subtype → Home Assistant type table in `get_devices`:
`Dimmer`/`Switch` → `light`, `Shade` → `shade`, anything else → `None`. -/
def haDeviceTypeFor (dt : Str) : Option Str :=
  if dt == dimmerStr || dt == switchStr then some lightStr
  else if dt == shadeSubStr then some shadeStr
  else none

/-- The first shade in the `/shades` payload with this id gives the
position (`shade.get("position", 0)`); otherwise `0`. -/
def shadePositionFor (shades : List RawShade) (id : Nat) : Nat :=
  match shades.find? (fun sh => sh.id == id) with
  | some sh => sh.position
  | none => 0

/-- The `device_info` dict built by `get_devices` (for scene records the
extra `sceneType` key is `some _`; device records have no such key). -/
structure DeviceInfo where
  id : Nat
  type : Str
  subType : Str
  sceneType : Option Str
  name : Str
  roomId : Option Nat
  roomName : Str
  level : Nat
  status : Bool
  position : Nat
  connectionStatus : Str
  ha_device_type : Option Str
deriving DecidableEq

/-- The `device_info` built for one `/devices` record. -/
def mkDeviceInfo (rooms : List RawRoom) (shades : List RawShade)
    (d : RawDevice) : DeviceInfo :=
  let room_name := roomNameFor rooms d.roomId
  let dt := deviceTypeResolved d
  { id := d.id
    type := dt
    subType := dt
    sceneType := none
    name := room_name ++ [' '] ++ d.name
    roomId := d.roomId
    roomName := room_name
    level := d.level
    status := d.status
    position := if dt == shadeSubStr then shadePositionFor shades d.id else 0
    connectionStatus := d.connectionStatus.getD onlineStr
    ha_device_type := haDeviceTypeFor dt }

/-- One iteration of the device loop: the record is appended exactly when
its mapped type is truthy, is in `enabled_types`, and the ignored-pattern
check does not fire; otherwise it is skipped (dropped). -/
def processRawDevice (rooms : List RawRoom) (shades : List RawShade)
    (enabled ignored : List Str) (d : RawDevice) : Option DeviceInfo :=
  match (mkDeviceInfo rooms shades d).ha_device_type with
  | some hat =>
      if !hat.isEmpty && enabled.contains hat then
        if matchesIgnoredPattern (mkDeviceInfo rooms shades d).name
            (mkDeviceInfo rooms shades d).type ignored then none
        else some (mkDeviceInfo rooms shades d)
      else none
  | none => none

/-- The `scene_info` built for one `/scenes` record: `type` and `subType`
are forced to `"Scene"`, `connectionStatus` to `"n/a"`, and the raw
payload's own `type` is kept only in `sceneType`. -/
def mkSceneInfo (rooms : List RawRoom) (s : RawScene) : DeviceInfo :=
  let room_name := roomNameFor rooms s.roomId
  { id := s.id
    type := sceneCapStr
    subType := sceneCapStr
    sceneType := some (s.type.getD [])
    name := room_name ++ [' '] ++ s.name
    roomId := s.roomId
    roomName := room_name
    level := 0
    status := s.status
    position := 0
    connectionStatus := naStr
    ha_device_type := some sceneStr }

/-- One iteration of the scene loop: appended unless ignored (matched
against the scene's name and its original `sceneType`). -/
def processRawScene (rooms : List RawRoom) (ignored : List Str)
    (s : RawScene) : Option DeviceInfo :=
  if matchesIgnoredPattern (mkSceneInfo rooms s).name
      ((mkSceneInfo rooms s).sceneType.getD []) ignored then none
  else some (mkSceneInfo rooms s)

/-- The device list `get_devices` assembles once all four collection
fetches have succeeded: processed `/devices` records, then — only when
`"scene"` is enabled — processed `/scenes` records. -/
def get_devices_pure (enabled ignored : List Str) (rooms : List RawRoom)
    (scenes : List RawScene) (devicesRaw : List RawDevice)
    (shades : List RawShade) : List DeviceInfo :=
  devicesRaw.filterMap (processRawDevice rooms shades enabled ignored) ++
    (if enabled.contains sceneStr then
      scenes.filterMap (processRawScene rooms ignored)
    else [])

/-- Whether a fetch result is a success. -/
def exceptIsOk : Except ApiErr α → Bool
  | .ok _ => true
  | .error _ => false

/-- `CrestronClient.get_devices` including its error policy: the four
fetches run under one `try`, and the blanket `except Exception` clause
swallows any failure and returns the empty list (`self.rooms` is then left
unchanged, returned here as `none`). -/
def get_devices_run (enabled ignored : List Str)
    (roomsR : Except ApiErr (List RawRoom))
    (scenesR : Except ApiErr (List RawScene))
    (devicesR : Except ApiErr (List RawDevice))
    (shadesR : Except ApiErr (List RawShade)) :
    List DeviceInfo × Option (List RawRoom) :=
  match roomsR, scenesR, devicesR, shadesR with
  | .ok rooms, .ok scenes, .ok devs, .ok shades =>
      (get_devices_pure enabled ignored rooms scenes devs shades, some rooms)
  | _, _, _, _ => ([], none)

/-! ## `CrestronClient.get_sensors` -/

/-- The room name a sensor gets: `""` unless `roomId` is truthy, then the
first matching room from `self.rooms`. -/
def sensorRoomName (rooms : List RawRoom) (rid : Option Nat) : Str :=
  if pyTruthyNum rid then roomNameFor rooms rid else []

/-- The composed display name of a sensor:
`f"{room_name} {sensor.get('name', '')}".strip()`. -/
def sensorDisplayName (rooms : List RawRoom) (s : RawSensor) : Str :=
  pyStrip (sensorRoomName rooms s.roomId ++ [' '] ++ s.name)

/-- The pure part of `get_sensors`: with no ignored patterns all sensors
are returned; otherwise the ones matching an ignored pattern are dropped. -/
def get_sensors_pure (selfRooms : List RawRoom) (ignored : List Str)
    (sensors : List RawSensor) : List RawSensor :=
  if ignored.isEmpty then sensors
  else
    sensors.filter (fun s =>
      !(matchesIgnoredPattern (sensorDisplayName selfRooms s)
        (s.subType.getD []) ignored))

/-- `CrestronClient.get_sensors`: unlike `get_devices` it has no
`try`/`except`, so a failed `/sensors` fetch propagates. -/
def get_sensors_run (selfRooms : List RawRoom) (ignored : List Str)
    (resp : Except ApiErr (List RawSensor)) : Except ApiErr (List RawSensor) :=
  match resp with
  | .error e => .error e
  | .ok sensors => .ok (get_sensors_pure selfRooms ignored sensors)

/-! ## Coordinator (`coordinator.py`, `_async_update_data`) -/

/-- The `sensor_info` dict built by the coordinator's sensor loop; the
type-specific keys are `some _` only for the matching sensor type. -/
structure SensorInfo where
  id : Nat
  type : Str
  subType : Str
  name : Str
  roomId : Option Nat
  roomName : Str
  ha_device_type : Str
  presence : Option Str
  door_status : Option Str
  battery_level : Option Str
  level : Option Nat
deriving DecidableEq

/-- An entry of `devices_by_type`: a device dict or a sensor dict. -/
inductive SnapEntry
  | dev (d : DeviceInfo)
  | sens (s : SensorInfo)
deriving DecidableEq

/-- The `devices_by_type` dict with its five fixed keys. -/
structure Snapshot where
  light : List SnapEntry
  shade : List SnapEntry
  scene : List SnapEntry
  binary_sensor : List SnapEntry
  sensor : List SnapEntry
deriving DecidableEq

def emptySnapshot : Snapshot := ⟨[], [], [], [], []⟩

/-- `devices_by_type[key].append(e)` for the five fixed keys. -/
def snapshotAppend (snap : Snapshot) (key : Str) (e : SnapEntry) : Snapshot :=
  if key == lightStr then { snap with light := snap.light ++ [e] }
  else if key == shadeStr then { snap with shade := snap.shade ++ [e] }
  else if key == sceneStr then { snap with scene := snap.scene ++ [e] }
  else if key == binarySensorStr then
    { snap with binary_sensor := snap.binary_sensor ++ [e] }
  else if key == sensorStr then { snap with sensor := snap.sensor ++ [e] }
  else snap

/-- Whether a string is one of `devices_by_type`'s keys
(`ha_device_type in devices_by_type`). -/
def isSnapKey (t : Str) : Bool :=
  t == lightStr || t == shadeStr || t == sceneStr ||
    t == binarySensorStr || t == sensorStr

/-- The coordinator's device loop: each device with a truthy mapped type
that is a key of `devices_by_type` is appended to that key's list. -/
def addDeviceEntries (snap : Snapshot) (devs : List DeviceInfo) : Snapshot :=
  devs.foldl
    (fun sp d =>
      match d.ha_device_type with
      | some t => if !t.isEmpty && isSnapKey t then snapshotAppend sp t (.dev d) else sp
      | none => sp)
    snap

/-- The coordinator's sensor subtype table: `OccupancySensor` and
`DoorSensor` → `binary_sensor`, `PhotoSensor` → `sensor`. -/
def coordSensorHaType (sub_type : Str) : Option Str :=
  if sub_type == occupancyStr then some binarySensorStr
  else if sub_type == doorSensorStr then some binarySensorStr
  else if sub_type == photoSensorStr then some sensorStr
  else none

/-- The `sensor_info` dict the coordinator builds for one sensor. -/
def mkCoordSensorInfo (sub_type room_name : Str) (hat : Str)
    (s : RawSensor) : SensorInfo :=
  { id := s.id
    type := sub_type
    subType := sub_type
    name := pyStrip (room_name ++ [' '] ++ s.name)
    roomId := s.roomId
    roomName := room_name
    ha_device_type := hat
    presence := if sub_type == occupancyStr then some (s.presence.getD unavailableStr) else none
    door_status := if sub_type == doorSensorStr then some (s.door_status.getD closedStr) else none
    battery_level := if sub_type == doorSensorStr then some (s.battery_level.getD normalStr) else none
    level := if sub_type == photoSensorStr then some s.level else none }

/-- One iteration of the coordinator's sensor loop: the sensor contributes
an entry under its mapped key exactly when the mapped type is truthy and
enabled AND neither the composed display name nor the subtype contains
`"circadian"` case-insensitively (the Circadian skip, `continue`). -/
def processCoordSensor (enabled : List Str) (clientRooms : List RawRoom)
    (s : RawSensor) : Option (Str × SensorInfo) :=
  match coordSensorHaType (s.subType.getD []) with
  | none => none
  | some hat =>
      if !hat.isEmpty && enabled.contains hat then
        if containsL circadianStr (lowerStr (sensorDisplayName clientRooms s)) ||
            containsL circadianStr (lowerStr (s.subType.getD [])) then none
        else some (hat, mkCoordSensorInfo (s.subType.getD [])
          (sensorRoomName clientRooms s.roomId) hat s)
      else none

/-- The coordinator's sensor loop: runs only when `binary_sensor` or
`sensor` is enabled; each surviving sensor is appended under its key. -/
def addSensorEntries (enabled : List Str) (clientRooms : List RawRoom)
    (snap : Snapshot) (sensors : List RawSensor) : Snapshot :=
  if enabled.contains binarySensorStr || enabled.contains sensorStr then
    sensors.foldl
      (fun sp s =>
        match processCoordSensor enabled clientRooms s with
        | some (hat, info) => snapshotAppend sp hat (.sens info)
        | none => sp)
      snap
  else snap

/-- Outcome of one `_async_update_data` cycle: a fresh snapshot, or
`UpdateFailed` (every exception reaching the coordinator is re-raised as
`UpdateFailed`). -/
inductive UpdateResult
  | ok (snap : Snapshot)
  | updateFailed (e : ApiErr)
deriving DecidableEq

def resultIsOk : UpdateResult → Bool
  | .ok _ => true
  | .updateFailed _ => false

/-- One poll cycle of `_async_update_data`, with the five fetch responses
passed explicitly. `get_devices` swallows any failure of the
rooms/scenes/devices/shades fetches and yields `[]` (leaving `self.rooms`
at `prevRooms`); a `/sensors` failure propagates out of the `gather` and
becomes `UpdateFailed`. On success the snapshot is assembled from the
device list and the filtered sensors. (The coordinator calls both
`get_devices` and `get_sensors` without an explicit ignored list, so both
use the `IGNORED_DEVICE_NAMES` environment patterns, `envIgnored`. The
periodic `_refresh_room_names` path swallows its own errors and does not
touch the snapshot, so it is not modelled.) -/
def asyncUpdateData (enabled envIgnored : List Str) (prevRooms : List RawRoom)
    (roomsR : Except ApiErr (List RawRoom))
    (scenesR : Except ApiErr (List RawScene))
    (devicesR : Except ApiErr (List RawDevice))
    (shadesR : Except ApiErr (List RawShade))
    (sensorsR : Except ApiErr (List RawSensor)) : UpdateResult :=
  let devRun := get_devices_run enabled envIgnored roomsR scenesR devicesR shadesR
  let clientRooms := devRun.2.getD prevRooms
  match get_sensors_run clientRooms envIgnored sensorsR with
  | .error e => .updateFailed e
  | .ok sensors =>
      .ok (addSensorEntries enabled clientRooms
        (addDeviceEntries emptySnapshot devRun.1) sensors)

/-- What consumers see after a cycle: the Home Assistant
`DataUpdateCoordinator` keeps the previously published data when
`_async_update_data` raises `UpdateFailed`. -/
def publishSnapshot (prev : Snapshot) (r : UpdateResult) : Snapshot :=
  match r with
  | .ok s => s
  | .updateFailed _ => prev

/-! ## Device manager (`device_manager.py`, `CrestronDeviceManager`)

Wall-clock time (`datetime.now()`, stored in `last_updated`) is passed as
an explicit argument `t`; a poll is a fold of the per-record steps over the
fetched collections at that instant. -/

def offlineStr : Str := "offline".toList
def offlineReasonStr : Str := "Device is offline".toList
def openStr : Str := "Open".toList
def vacantStr : Str := "Vacant".toList

/-- The `raw_data` attribute: the dict last merged into the device. -/
inductive ManagerRaw
  | empty
  | fromDevice (d : DeviceInfo)
  | fromSensor (s : RawSensor)
deriving DecidableEq

/-- The `CrestronDevice` dataclass (`models.py`), plus the dynamically
added `ha_registry` attribute (set by `_update_ha_parameters` before any
read; modelled with a `false` default). -/
structure CrestronDevice where
  id : Nat
  room : Str
  name : Str
  type : Str
  subtype : Str
  status : Bool
  level : Nat
  connection : Str
  last_updated : Nat
  ha_state : Bool
  ha_hidden : Bool
  ha_reason : Str
  ha_registry : Bool
  room_id : Option Nat
  position : Nat
  value : Option Nat
  unit : Str
  battery_level : Str
  presence : Str
  door_status : Str
  raw_data : ManagerRaw
deriving DecidableEq

/-- `_update_ha_parameters`: always register; offline ⇒ unavailable with a
reason, otherwise available with no reason. -/
def updateHaParameters (d : CrestronDevice) : CrestronDevice :=
  if d.connection == offlineStr then
    { d with ha_registry := true, ha_state := false, ha_reason := offlineReasonStr }
  else
    { d with ha_registry := true, ha_state := true, ha_reason := [] }

/-- `device_data.get("subType") or device_data.get("type", "")` on the
dicts `get_devices` produced (both keys always present there). -/
def managerDeviceType (info : DeviceInfo) : Str :=
  if info.subType.isEmpty then info.type else info.subType

/-- The in-place update path of `_process_devices` for an existing device:
refresh `status`, `level`, `connection` (`"n/a"` for scenes),
`last_updated`, `position` (shades only), `raw_data`, then the HA
parameters. All other fields are left as they are. -/
def updateDeviceFrom (t : Nat) (dev : CrestronDevice) (info : DeviceInfo) :
    CrestronDevice :=
  let dt := managerDeviceType info
  let dev1 :=
    { dev with
        status := info.status
        level := info.level
        connection := if dt == sceneCapStr then naStr else info.connectionStatus
        last_updated := t }
  let dev2 := if dt == shadeSubStr then { dev1 with position := info.position } else dev1
  updateHaParameters { dev2 with raw_data := .fromDevice info }

/-- The creation path of `_process_devices` for a new device id. -/
def createDeviceFrom (t : Nat) (info : DeviceInfo) : CrestronDevice :=
  let dt := managerDeviceType info
  updateHaParameters
    { id := info.id
      room := info.roomName
      name := info.name
      type := dt
      subtype := dt
      status := info.status
      level := info.level
      connection := if dt == sceneCapStr then naStr else info.connectionStatus
      last_updated := t
      ha_state := true
      ha_hidden := false
      ha_reason := []
      ha_registry := false
      room_id := info.roomId
      position := if dt == shadeSubStr then info.position else 0
      value := none
      unit := []
      battery_level := []
      presence := []
      door_status := []
      raw_data := .fromDevice info }

/-- `self.devices`, keyed by device id. -/
abbrev DeviceMap := Nat → Option CrestronDevice

/-- One iteration of the `_process_devices` loop: falsy ids are skipped;
an existing entry is updated in place, a missing one created. -/
def stepDevice (t : Nat) (st : DeviceMap) (info : DeviceInfo) : DeviceMap :=
  if info.id = 0 then st
  else
    match st info.id with
    | some dev => fun i => if i = info.id then some (updateDeviceFrom t dev info) else st i
    | none => fun i => if i = info.id then some (createDeviceFrom t info) else st i

/-- `_process_devices`. -/
def processDevicesM (t : Nat) (st : DeviceMap) (ds : List DeviceInfo) : DeviceMap :=
  ds.foldl (stepDevice t) st

/-- `presence not in ["Vacant", "Unavailable"]`. -/
def presenceToStatus (p : Str) : Bool :=
  !(p == vacantStr || p == unavailableStr)

/-- The in-place update path of `_process_sensors` for an existing entry:
refresh `connection`, `last_updated`, the subtype-specific fields, and
`raw_data`, then the HA parameters. -/
def updateSensorFrom (t : Nat) (dev : CrestronDevice) (s : RawSensor) :
    CrestronDevice :=
  let sub := s.subType.getD []
  let dev1 :=
    { dev with
        connection := s.connectionStatus.getD onlineStr
        last_updated := t }
  let dev2 :=
    if sub == occupancyStr then
      { dev1 with
          presence := s.presence.getD unavailableStr
          status := presenceToStatus (s.presence.getD unavailableStr) }
    else if sub == doorSensorStr then
      { dev1 with
          door_status := s.door_status.getD closedStr
          battery_level := s.battery_level.getD normalStr
          status := (s.door_status.getD closedStr) == openStr }
    else if sub == photoSensorStr then
      { dev1 with value := some s.level, level := s.level }
    else dev1
  updateHaParameters { dev2 with raw_data := .fromSensor s }

/-- The creation path of `_process_sensors` for a new sensor id. -/
def createSensorFrom (t : Nat) (clientRooms : List RawRoom) (s : RawSensor) :
    CrestronDevice :=
  let sub := s.subType.getD []
  let base : CrestronDevice :=
    { id := s.id
      room := sensorRoomName clientRooms s.roomId
      name := s.name
      type := sub
      subtype := sub
      status := false
      level := 0
      connection := s.connectionStatus.getD onlineStr
      last_updated := t
      ha_state := true
      ha_hidden := false
      ha_reason := []
      ha_registry := false
      room_id := s.roomId
      position := 0
      value := none
      unit := []
      battery_level := []
      presence := []
      door_status := []
      raw_data := .fromSensor s }
  let base2 :=
    if sub == occupancyStr then
      { base with
          presence := s.presence.getD unavailableStr
          status := presenceToStatus (s.presence.getD unavailableStr) }
    else if sub == doorSensorStr then
      { base with
          door_status := s.door_status.getD closedStr
          battery_level := s.battery_level.getD normalStr
          status := (s.door_status.getD closedStr) == openStr }
    else if sub == photoSensorStr then
      { base with value := some s.level, level := s.level }
    else base
  updateHaParameters base2

/-- One iteration of the `_process_sensors` loop. -/
def stepSensor (t : Nat) (clientRooms : List RawRoom) (st : DeviceMap)
    (s : RawSensor) : DeviceMap :=
  if s.id = 0 then st
  else
    match st s.id with
    | some dev => fun i => if i = s.id then some (updateSensorFrom t dev s) else st i
    | none => fun i => if i = s.id then some (createSensorFrom t clientRooms s) else st i

/-- `_process_sensors`. -/
def processSensorsM (t : Nat) (clientRooms : List RawRoom) (st : DeviceMap)
    (ss : List RawSensor) : DeviceMap :=
  ss.foldl (stepSensor t clientRooms) st

/-- One aggregation pass of `poll_devices`: `_process_devices` on the
fetched device dicts, then `_process_sensors` on the fetched sensors. -/
def aggregateM (t : Nat) (clientRooms : List RawRoom) (st : DeviceMap)
    (ds : List DeviceInfo) (ss : List RawSensor) : DeviceMap :=
  processSensorsM t clientRooms (processDevicesM t st ds) ss

/-- The ids a device list touches (falsy ids are skipped by the loop). -/
def deviceIdsOf (ds : List DeviceInfo) : List Nat :=
  (ds.filter (fun d => !(d.id == 0))).map DeviceInfo.id

/-- The ids a sensor list touches. -/
def sensorIdsOf (ss : List RawSensor) : List Nat :=
  (ss.filter (fun s => !(s.id == 0))).map RawSensor.id

/-! ## Concurrent `login` callers (`api.py`, `CrestronClient.login`)

`login` has exactly one `await` boundary between reading the session guard
and writing `auth_key`/`last_login`: the HTTP exchange. Each caller is
therefore two atomic steps — the validity check, and the network exchange
followed by the assignments. A schedule is the order in which the event
loop lets callers take their next step. There is no lock in `login`. -/

/-- Program counter of one concurrent `login` caller. -/
inductive CallerPc
  | start
  | needsNet
  | finished
deriving DecidableEq

/-- Shared client state plus the callers' progress: `netCount` counts the
network login exchanges actually issued; `observed` is the key each
finished caller saw. -/
structure ConcLoginState (n : Nat) where
  pc : Fin n → CallerPc
  auth_key : Option Str
  last_login : Int
  netCount : Nat
  observed : Fin n → Option Str

/-- One step of caller `i`: from `start` it runs the session-validity
check (returning at once when valid, else moving to the network phase);
from `needsNet` it performs the exchange, stores the received key and
`last_login := now`, and finishes. `serverKey i` is the key the server
hands caller `i`'s exchange. -/
def concStep (now : Int) (serverKey : Fin n → Str) (st : ConcLoginState n)
    (i : Fin n) : ConcLoginState n :=
  match st.pc i with
  | .start =>
      if sessionValid ⟨st.auth_key, st.last_login⟩ now then
        { st with
            pc := fun j => if j = i then .finished else st.pc j
            observed := fun j => if j = i then st.auth_key else st.observed j }
      else { st with pc := fun j => if j = i then .needsNet else st.pc j }
  | .needsNet =>
      { st with
          pc := fun j => if j = i then .finished else st.pc j
          auth_key := some (serverKey i)
          last_login := now
          netCount := st.netCount + 1
          observed := fun j => if j = i then some (serverKey i) else st.observed j }
  | .finished => st

/-- Run a schedule of caller steps. -/
def concExec (now : Int) (serverKey : Fin n → Str) (sched : List (Fin n))
    (st : ConcLoginState n) : ConcLoginState n :=
  sched.foldl (concStep now serverKey) st

/-- `n` callers about to call `login` on a client whose cached session is
expired (fresh client: no key, `last_login = 0`). -/
def concInit (n : Nat) : ConcLoginState n :=
  { pc := fun _ => .start
    auth_key := none
    last_login := 0
    netCount := 0
    observed := fun _ => none }

/-! # Helper lemmas -/

theorem crestron_to_percentage_eq (v : Nat) :
    crestron_to_percentage v = pyRound (v * 100) 65535 := by
  unfold crestron_to_percentage CRESTRON_MAX_LEVEL
  split
  · have : v = 0 := by omega
    subst this
    decide
  · rfl

theorem percentage_to_crestron_eq (v : Nat) :
    percentage_to_crestron v = pyRound (65535 * v) 100 := by
  unfold percentage_to_crestron CRESTRON_MAX_LEVEL
  split
  · have : v = 0 := by omega
    subst this
    decide
  · rfl

/-- `pyRound num 65535` is within half a unit of `num / 65535` (scaled by
`2 * 65535`). -/
theorem pyRound_65535_bound (num : Nat) :
    2 * (65535 * pyRound num 65535) ≤ 2 * num + 65535 ∧
      2 * num ≤ 2 * (65535 * pyRound num 65535) + 65535 := by
  unfold pyRound
  split_ifs <;> omega

/-- `pyRound num 100` is within half a unit of `num / 100`. -/
theorem pyRound_100_bound (num : Nat) :
    2 * (100 * pyRound num 100) ≤ 2 * num + 100 ∧
      2 * num ≤ 2 * (100 * pyRound num 100) + 100 := by
  unfold pyRound
  split_ifs <;> omega

/-- A `login` that returned normally leaves a truthy `auth_key`. -/
theorem loginRun_ok_truthy (st : ClientAuthState) (now : Int) (resp : LoginResp)
    (h : (loginRun st now resp).outcome = Except.ok ()) :
    pyTruthyKey (loginRun st now resp).state.auth_key = true := by
  unfold loginRun at h ⊢
  by_cases hv : sessionValid st now
  · simp only [hv, if_true]
    unfold sessionValid at hv
    exact (Bool.and_eq_true _ _).mp hv |>.1
  · simp only [hv, if_false] at h ⊢
    cases resp with
    | ok k =>
        by_cases hk : pyTruthyKey k
        · simp [hk]
        · simp [hk] at h
    | connErr => simp at h
    | respErr => simp at h
    | other => simp at h

/-! # Claim theorems -/

/-- C4 (counterexample): at `v = 983` the round trip
`percentage_to_crestron (crestron_to_percentage v)` yields `655`, which
differs from `983` by `328`, not by at most `1` as claimed. -/
theorem spec_c4_counterexample :
    crestron_to_percentage 983 = 1 ∧
      percentage_to_crestron (crestron_to_percentage 983) = 655 ∧
      ¬(983 ≤ percentage_to_crestron (crestron_to_percentage 983) + 1) := by
  decide

/-- C4 (amended): for every natural `v` (in particular every
`v ∈ [0, 65535]`), `percentage_to_crestron (crestron_to_percentage v)`
differs from `v` by at most `328` — half of one percentage quantization
step (`655.35`), plus the second rounding. -/
theorem spec_c4_theorem (v : Nat) :
    percentage_to_crestron (crestron_to_percentage v) ≤ v + 328 ∧
      v ≤ percentage_to_crestron (crestron_to_percentage v) + 328 := by
  rw [crestron_to_percentage_eq, percentage_to_crestron_eq]
  have h1 := pyRound_65535_bound (v * 100)
  have h2 := pyRound_100_bound (65535 * pyRound (v * 100) 65535)
  omega

/-- C9: `login` returns without a network exchange exactly when the cached
key is truthy and `now - last_login < CRESTRON_SESSION_TIMEOUT`; the
timeout is `9 * 60 = 540` seconds; in every other case it performs exactly
one network login exchange. -/
theorem spec_c9_theorem (st : ClientAuthState) (now : Int) (resp : LoginResp) :
    (sessionValid st now = true ↔
      (pyTruthyKey st.auth_key = true ∧ now - st.last_login < 540)) ∧
    (sessionValid st now = true → loginRun st now resp = ⟨st, 0, .ok ()⟩) ∧
    (sessionValid st now = false → (loginRun st now resp).networkCalls = 1) ∧
    CRESTRON_SESSION_TIMEOUT = 9 * 60 := by
  refine ⟨?_, ?_, ?_, rfl⟩
  · unfold sessionValid CRESTRON_SESSION_TIMEOUT
    simp
  · intro h
    unfold loginRun
    simp [h]
  · intro h
    unfold loginRun
    simp only [h, Bool.false_eq_true, if_false]
    cases resp with
    | ok k => by_cases hk : pyTruthyKey k <;> simp [hk]
    | connErr => rfl
    | respErr => rfl
    | other => rfl

/-- C9 (witness): a client with key `"k"` issued at `600` skips the network
at `now = 1000` (age `400 < 540`); a fresh client performs one exchange. -/
theorem spec_c9_witness :
    loginRun ⟨some ("k".toList), 600⟩ 1000 .connErr =
        ⟨⟨some ("k".toList), 600⟩, 0, .ok ()⟩ ∧
      (loginRun ⟨none, 0⟩ 1000 .connErr).networkCalls = 1 :=
  ⟨(spec_c9_theorem ⟨some ("k".toList), 600⟩ 1000 .connErr).2.1 (by decide),
    (spec_c9_theorem ⟨none, 0⟩ 1000 .connErr).2.2.1 (by decide)⟩

/-- C8: whenever the authenticated endpoint request comes back with HTTP
status 401 (after a `login` that returned normally), `_api_request` clears
both `auth_key` and `last_login` in the same step, raises
`CrestronAuthError`, and issues exactly one request — no retry. -/
theorem spec_c8_theorem (st : ClientAuthState) (now : Int) (lresp : LoginResp)
    (h : (loginRun st now lresp).outcome = Except.ok ()) :
    apiRequest st now lresp (.httpErr 401) = ⟨⟨none, 0⟩, 1, .error .auth⟩ := by
  unfold apiRequest
  simp only [h, loginRun_ok_truthy st now lresp h, if_true]

/-- C8 (witness): a client with a valid cached session receives a 401 and
ends cleared, with an auth error and a single request issued. -/
theorem spec_c8_witness :
    apiRequest ⟨some ("k".toList), 600⟩ 1000 .connErr (.httpErr 401) =
      ⟨⟨none, 0⟩, 1, .error .auth⟩ :=
  spec_c8_theorem ⟨some ("k".toList), 600⟩ 1000 .connErr rfl

/-- Per-pattern: the code's loop body agrees with the spec's grammar. -/
theorem matchOnePattern_iff_spec (name device_type pat : Str) :
    matchOnePattern (lowerStr name) (lowerStr device_type) pat = true ↔
      specPatternMatches pat name device_type := by
  unfold matchOnePattern specPatternMatches
  split_ifs <;> simp

/-- C5: the ignore matcher returns true exactly when some pattern in the
set matches per the spec's case-insensitive grammar (`%x%` contains, `%x`
suffix, `x%` prefix, bare exact, each against name OR type), and the empty
pattern list never matches. -/
theorem spec_c5_theorem (name device_type : Str) (patterns : List Str) :
    (matchesIgnoredPattern name device_type patterns = true ↔
      ∃ pat ∈ patterns, specPatternMatches pat name device_type) ∧
    matchesIgnoredPattern name device_type [] = false := by
  constructor
  · unfold matchesIgnoredPattern
    rw [List.any_eq_true]
    constructor
    · rintro ⟨pat, hmem, hmatch⟩
      exact ⟨pat, hmem, (matchOnePattern_iff_spec name device_type pat).mp hmatch⟩
    · rintro ⟨pat, hmem, hmatch⟩
      exact ⟨pat, hmem, (matchOnePattern_iff_spec name device_type pat).mpr hmatch⟩
  · rfl

/-- C6 (counterexample): a device whose resolved subtype (`"Fan"`) has no
mapping is dropped from the `get_devices` result entirely — with every
relevant platform enabled and no ignore patterns, the output is empty —
rather than kept tagged as unmapped. -/
theorem spec_c6_counterexample :
    get_devices_pure [lightStr, shadeStr, sceneStr] [] [] []
        [⟨7, none, ("Fan".toList), none, some ("Fan".toList), 0, false, none⟩] [] = [] ∧
      haDeviceTypeFor (deviceTypeResolved
        ⟨7, none, ("Fan".toList), none, some ("Fan".toList), 0, false, none⟩) = none := by
  decide

/-- C6 (amended): the vendor subtype is resolved preferring a truthy
`subType` over `type` and mapped through the fixed table
(Dimmer/Switch → light, Shade → shade); a record whose resolved subtype
has no mapping is dropped from the result (not kept), and every kept
record carries the table's mapped type. -/
theorem spec_c6_theorem (rooms : List RawRoom) (shades : List RawShade)
    (enabled ignored : List Str) (d : RawDevice) :
    (haDeviceTypeFor dimmerStr = some lightStr ∧
      haDeviceTypeFor switchStr = some lightStr ∧
      haDeviceTypeFor shadeSubStr = some shadeStr) ∧
    (∀ s, d.subType = some s → s ≠ [] → deviceTypeResolved d = s) ∧
    (haDeviceTypeFor (deviceTypeResolved d) = none →
      processRawDevice rooms shades enabled ignored d = none) ∧
    (∀ e, processRawDevice rooms shades enabled ignored d = some e →
      e = mkDeviceInfo rooms shades d ∧
      e.ha_device_type = haDeviceTypeFor (deviceTypeResolved d)) := by
  refine ⟨by decide, ?_, ?_, ?_⟩
  · intro s hs hne
    unfold deviceTypeResolved
    rw [hs]
    cases s with
    | nil => exact absurd rfl hne
    | cons c cs => rfl
  · intro h
    unfold processRawDevice
    have hmk : (mkDeviceInfo rooms shades d).ha_device_type =
        haDeviceTypeFor (deviceTypeResolved d) := rfl
    rw [hmk, h]
  · intro e he
    unfold processRawDevice at he
    revert he
    have hmk : (mkDeviceInfo rooms shades d).ha_device_type =
        haDeviceTypeFor (deviceTypeResolved d) := rfl
    rw [hmk]
    cases hh : haDeviceTypeFor (deviceTypeResolved d) with
    | none => intro he; exact absurd he (by simp)
    | some hat =>
        simp only []
        split_ifs with h1 h2
        · intro he; exact absurd he (by simp)
        · intro he
          have : e = mkDeviceInfo rooms shades d := by
            injection he with h3
            exact h3.symm
          exact ⟨this, by rw [this, hmk, hh]⟩
        · intro he; exact absurd he (by simp)

/-- C6 (witness): the unmapped `"Fan"` device is dropped by the device
loop. -/
theorem spec_c6_witness :
    processRawDevice [] [] [lightStr] []
      ⟨7, none, ("Fan".toList), none, some ("Fan".toList), 0, false, none⟩ = none :=
  (spec_c6_theorem [] [] [lightStr] []
    ⟨7, none, ("Fan".toList), none, some ("Fan".toList), 0, false, none⟩).2.2.1
    (by decide)

/-- C7: every entry produced by the scene loop has `type` and `subType`
forced to `"Scene"`, `connectionStatus` forced to `"n/a"`, maps to the
`scene` platform, and keeps the raw payload's own `type` only in the
auxiliary `sceneType` field. -/
theorem spec_c7_theorem (rooms : List RawRoom) (ignored : List Str)
    (scenes : List RawScene) :
    ∀ e ∈ scenes.filterMap (processRawScene rooms ignored),
      e.type = sceneCapStr ∧ e.subType = sceneCapStr ∧
      e.connectionStatus = naStr ∧ e.ha_device_type = some sceneStr ∧
      ∃ s ∈ scenes, e.id = s.id ∧ e.sceneType = some (s.type.getD []) := by
  intro e he
  rw [List.mem_filterMap] at he
  obtain ⟨s, hs, hsome⟩ := he
  unfold processRawScene at hsome
  split_ifs at hsome
  have he : e = mkSceneInfo rooms s := by
    injection hsome with h
    exact h.symm
  subst he
  exact ⟨rfl, rfl, rfl, rfl, s, hs, rfl, rfl⟩

/-- C7 (witness): a raw scene whose own `type` is `"Shade"` is still
aggregated as kind `Scene`, connection `n/a`, with `sceneType = "Shade"`. -/
theorem spec_c7_witness :
    (mkSceneInfo [] ⟨3, ("Evening".toList), none, some shadeSubStr, false⟩).type = sceneCapStr ∧
    (mkSceneInfo [] ⟨3, ("Evening".toList), none, some shadeSubStr, false⟩).subType = sceneCapStr ∧
    (mkSceneInfo [] ⟨3, ("Evening".toList), none, some shadeSubStr, false⟩).connectionStatus = naStr ∧
    (mkSceneInfo [] ⟨3, ("Evening".toList), none, some shadeSubStr, false⟩).ha_device_type = some sceneStr ∧
    ∃ s ∈ [(⟨3, ("Evening".toList), none, some shadeSubStr, false⟩ : RawScene)],
      (mkSceneInfo [] ⟨3, ("Evening".toList), none, some shadeSubStr, false⟩).id = s.id ∧
      (mkSceneInfo [] ⟨3, ("Evening".toList), none, some shadeSubStr, false⟩).sceneType =
        some (s.type.getD []) :=
  spec_c7_theorem [] [] [⟨3, ("Evening".toList), none, some shadeSubStr, false⟩]
    (mkSceneInfo [] ⟨3, ("Evening".toList), none, some shadeSubStr, false⟩) (by decide)

/-- C10: a sensor whose composed display name (room name followed by
sensor name) or whose subtype contains `"circadian"` case-insensitively
contributes nothing to the per-type snapshot: its loop iteration yields no
entry, and the sensor loop leaves any snapshot unchanged on it — for every
enabled-types configuration. -/
theorem spec_c10_theorem (enabled : List Str) (clientRooms : List RawRoom)
    (s : RawSensor)
    (h : containsL circadianStr (lowerStr (sensorDisplayName clientRooms s)) = true ∨
      containsL circadianStr (lowerStr (s.subType.getD [])) = true) :
    processCoordSensor enabled clientRooms s = none ∧
      ∀ snap, addSensorEntries enabled clientRooms snap [s] = snap := by
  have hnone : processCoordSensor enabled clientRooms s = none := by
    unfold processCoordSensor
    cases hh : coordSensorHaType (s.subType.getD []) with
    | none => rfl
    | some hat =>
        simp only []
        split_ifs with h1 h2
        · rfl
        · exact absurd (Bool.or_eq_true _ _ |>.mpr (by rcases h with h | h <;> simp [h])) h2
        · rfl
  refine ⟨hnone, ?_⟩
  intro snap
  unfold addSensorEntries
  split_ifs
  · simp [List.foldl, hnone]
  · rfl

/-- C10 (witness): a photo sensor named `"Circadian"` is excluded even
with the `sensor` platform enabled. -/
theorem spec_c10_witness :
    processCoordSensor [sensorStr] []
        ⟨9, ("Circadian".toList), none, some photoSensorStr, none, none, none, 0, none⟩ = none ∧
      ∀ snap, addSensorEntries [sensorStr] [] snap
        [⟨9, ("Circadian".toList), none, some photoSensorStr, none, none, none, 0, none⟩] = snap :=
  spec_c10_theorem [sensorStr] []
    ⟨9, ("Circadian".toList), none, some photoSensorStr, none, none, none, 0, none⟩
    (Or.inl (by decide))

/-- C1 (counterexample): with every platform enabled, a cycle in which the
`/devices` fetch fails while `/rooms`, `/scenes`, `/shades` and `/sensors`
succeed (one occupancy sensor) does NOT fail: `get_devices` swallows the
error into an empty device list, the cycle returns a fresh snapshot
assembled from that partial data (sensors present, no lights), and the
previously published snapshot is replaced. -/
theorem spec_c1_counterexample :
    resultIsOk (asyncUpdateData [lightStr, shadeStr, sceneStr, binarySensorStr, sensorStr]
        [] [] (.ok []) (.ok []) (.error .api) (.ok [])
        (.ok [⟨5, ("Motion".toList), none, some occupancyStr, none, none, none, 0, none⟩])) = true ∧
      (publishSnapshot emptySnapshot
        (asyncUpdateData [lightStr, shadeStr, sceneStr, binarySensorStr, sensorStr]
          [] [] (.ok []) (.ok []) (.error .api) (.ok [])
          (.ok [⟨5, ("Motion".toList), none, some occupancyStr, none, none, none, 0, none⟩]))).binary_sensor ≠ [] ∧
      (publishSnapshot emptySnapshot
        (asyncUpdateData [lightStr, shadeStr, sceneStr, binarySensorStr, sensorStr]
          [] [] (.ok []) (.ok []) (.error .api) (.ok [])
          (.ok [⟨5, ("Motion".toList), none, some occupancyStr, none, none, none, 0, none⟩]))).light = [] := by
  decide

/-- C1 (amended): only a `/sensors` fetch failure fails the cycle — then
no snapshot is assembled and the previously published one remains visible.
A failure of any of the rooms/scenes/devices/shades fetches is swallowed
inside `get_devices`, which returns `[]`, and the cycle succeeds with a
snapshot assembled from the empty device list plus the fetched sensors. -/
theorem spec_c1_theorem (enabled envIgnored : List Str) (prevRooms : List RawRoom)
    (roomsR : Except ApiErr (List RawRoom)) (scenesR : Except ApiErr (List RawScene))
    (devicesR : Except ApiErr (List RawDevice)) (shadesR : Except ApiErr (List RawShade))
    (sensorsR : Except ApiErr (List RawSensor)) :
    (∀ e, sensorsR = .error e →
      asyncUpdateData enabled envIgnored prevRooms roomsR scenesR devicesR shadesR sensorsR =
          .updateFailed e ∧
        ∀ prev, publishSnapshot prev
          (asyncUpdateData enabled envIgnored prevRooms roomsR scenesR devicesR shadesR sensorsR) =
            prev) ∧
    (∀ sensors, sensorsR = .ok sensors →
      (exceptIsOk roomsR && exceptIsOk scenesR && exceptIsOk devicesR && exceptIsOk shadesR) = false →
      asyncUpdateData enabled envIgnored prevRooms roomsR scenesR devicesR shadesR sensorsR =
        .ok (addSensorEntries enabled prevRooms (addDeviceEntries emptySnapshot [])
          (get_sensors_pure prevRooms envIgnored sensors))) := by
  constructor
  · rintro e rfl
    constructor
    · rfl
    · intro prev
      rfl
  · rintro sensors rfl hfail
    cases roomsR <;> cases scenesR <;> cases devicesR <;> cases shadesR <;>
      simp_all [asyncUpdateData, get_devices_run, get_sensors_run, exceptIsOk]

/-- C1 (witness): a cycle whose `/sensors` fetch fails raises
`UpdateFailed` and leaves the published snapshot unchanged. -/
theorem spec_c1_witness :
    asyncUpdateData [lightStr] [] [] (.ok []) (.ok []) (.ok []) (.ok []) (.error .conn) =
        .updateFailed .conn ∧
      publishSnapshot emptySnapshot
        (asyncUpdateData [lightStr] [] [] (.ok []) (.ok []) (.ok []) (.ok []) (.error .conn)) =
          emptySnapshot :=
  ⟨((spec_c1_theorem [lightStr] [] [] (.ok []) (.ok []) (.ok []) (.ok []) (.error .conn)).1
      .conn rfl).1,
    ((spec_c1_theorem [lightStr] [] [] (.ok []) (.ok []) (.ok []) (.ok []) (.error .conn)).1
      .conn rfl).2 emptySnapshot⟩

theorem concExec_append {n : Nat} (now : Int) (sk : Fin n → Str)
    (l1 l2 : List (Fin n)) (st : ConcLoginState n) :
    concExec now sk (l1 ++ l2) st = concExec now sk l2 (concExec now sk l1 st) :=
  List.foldl_append _ _ _ _

/-- Checks phase: distinct callers all at `start`, on an untruthy cached
key, each run the validity check; shared state is untouched and each moves
to the network phase. -/
theorem concExec_checks {n : Nat} (now : Int) (sk : Fin n → Str)
    (l : List (Fin n)) (st : ConcLoginState n)
    (hnd : l.Nodup) (hkey : pyTruthyKey st.auth_key = false)
    (hpc : ∀ i ∈ l, st.pc i = .start) :
    (concExec now sk l st).auth_key = st.auth_key ∧
    (concExec now sk l st).last_login = st.last_login ∧
    (concExec now sk l st).netCount = st.netCount ∧
    (∀ i, (concExec now sk l st).pc i = if i ∈ l then .needsNet else st.pc i) := by
  induction l generalizing st with
  | nil => simp [concExec]
  | cons a l ih =>
      have hpa : st.pc a = .start := hpc a (List.mem_cons_self a l)
      have hsv : sessionValid ⟨st.auth_key, st.last_login⟩ now = false := by
        unfold sessionValid
        simp [hkey]
      have hstep : concStep now sk st a =
          { st with pc := fun j => if j = a then .needsNet else st.pc j } := by
        unfold concStep
        rw [hpa]
        simp [hsv]
      have hrest : concExec now sk (a :: l) st =
          concExec now sk l (concStep now sk st a) := rfl
      rw [hrest, hstep]
      have hnotmem : a ∉ l := (List.nodup_cons.mp hnd).1
      obtain ⟨h1, h2, h3, h4⟩ :=
        ih { st with pc := fun j => if j = a then CallerPc.needsNet else st.pc j }
          (List.nodup_cons.mp hnd).2 hkey
          (fun i hi => by
            have hne : i ≠ a := fun he => hnotmem (he ▸ hi)
            show (if i = a then CallerPc.needsNet else st.pc i) = CallerPc.start
            rw [if_neg hne]
            exact hpc i (List.mem_cons_of_mem a hi))
      refine ⟨h1, h2, h3, ?_⟩
      intro i
      rw [h4 i]
      show (if i ∈ l then CallerPc.needsNet
          else if i = a then CallerPc.needsNet else st.pc i) =
        if i ∈ a :: l then CallerPc.needsNet else st.pc i
      by_cases hil : i ∈ l
      · simp [hil, List.mem_cons]
      · by_cases hia : i = a
        · simp [hil, hia]
        · simp [hil, hia, List.mem_cons]

/-- Network phase: distinct callers all at `needsNet` each issue their own
login exchange — the network-call counter increases by the number of
callers. -/
theorem concExec_nets {n : Nat} (now : Int) (sk : Fin n → Str)
    (l : List (Fin n)) (st : ConcLoginState n)
    (hnd : l.Nodup) (hpc : ∀ i ∈ l, st.pc i = .needsNet) :
    (concExec now sk l st).netCount = st.netCount + l.length := by
  induction l generalizing st with
  | nil => simp [concExec]
  | cons a l ih =>
      have hpa : st.pc a = .needsNet := hpc a (List.mem_cons_self a l)
      have hstep : concStep now sk st a =
          { st with
              pc := fun j => if j = a then .finished else st.pc j
              auth_key := some (sk a)
              last_login := now
              netCount := st.netCount + 1
              observed := fun j => if j = a then some (sk a) else st.observed j } := by
        unfold concStep
        rw [hpa]
      have hrest : concExec now sk (a :: l) st =
          concExec now sk l (concStep now sk st a) := rfl
      rw [hrest, hstep]
      have hnotmem : a ∉ l := (List.nodup_cons.mp hnd).1
      rw [ih
        { st with
            pc := fun j => if j = a then CallerPc.finished else st.pc j
            auth_key := some (sk a)
            last_login := now
            netCount := st.netCount + 1
            observed := fun j => if j = a then some (sk a) else st.observed j }
        (List.nodup_cons.mp hnd).2
        (fun i hi => by
          have hne : i ≠ a := fun he => hnotmem (he ▸ hi)
          show (if i = a then CallerPc.finished else st.pc i) = CallerPc.needsNet
          rw [if_neg hne]
          exact hpc i (List.mem_cons_of_mem a hi))]
      simp only [List.length_cons]
      omega

/-- C2 (counterexample): two callers hit `login` concurrently on an
expired session; under the schedule check-A, check-B, net-A, net-B, TWO
network login calls are issued, not exactly one — `login` has no lock, so
a caller whose check precedes the other's completion does not wait. -/
theorem spec_c2_counterexample :
    (concExec 1000 (fun _ => ("k".toList)) [0, 1, 0, 1] (concInit 2)).netCount = 2 := by
  rfl

/-- C2 (amended): `login` does not serialize concurrent callers. For every
`n`, when `n` callers on an expired session all run their validity check
before any login completes, every one of them issues its own network login
exchange: exactly `n` login calls, not one. -/
theorem spec_c2_theorem (n : Nat) (now : Int) (sk : Fin n → Str) :
    (concExec now sk (List.finRange n ++ List.finRange n) (concInit n)).netCount = n := by
  obtain ⟨h1, h2, h3, h4⟩ := concExec_checks now sk (List.finRange n) (concInit n)
    (List.nodup_finRange n) rfl (fun i _ => rfl)
  rw [concExec_append, concExec_nets now sk (List.finRange n) _ (List.nodup_finRange n)
    (fun i _ => by rw [h4 i]; simp [List.mem_finRange]), h3]
  simp [concInit, List.length_finRange]

/-- Re-merging the same device dict into an already-updated device changes
nothing: the update path writes each field to a value depending only on
the dict (and the poll instant). -/
theorem updateDeviceFrom_idem (t : Nat) (dev : CrestronDevice) (info : DeviceInfo) :
    updateDeviceFrom t (updateDeviceFrom t dev info) info = updateDeviceFrom t dev info := by
  simp only [updateDeviceFrom, updateHaParameters]
  split_ifs <;> rfl

/-- Updating a freshly created device with the dict it was created from
changes nothing. -/
theorem updateDeviceFrom_create (t : Nat) (info : DeviceInfo) :
    updateDeviceFrom t (createDeviceFrom t info) info = createDeviceFrom t info := by
  simp only [updateDeviceFrom, createDeviceFrom, updateHaParameters]
  split_ifs <;> rfl

/-- Re-merging the same sensor dict into an already-updated entry changes
nothing. -/
theorem updateSensorFrom_idem (t : Nat) (dev : CrestronDevice) (s : RawSensor) :
    updateSensorFrom t (updateSensorFrom t dev s) s = updateSensorFrom t dev s := by
  simp only [updateSensorFrom, updateHaParameters]
  split_ifs <;> rfl

/-- Updating a freshly created sensor entry with the dict it was created
from changes nothing. -/
theorem updateSensorFrom_create (t : Nat) (clientRooms : List RawRoom) (s : RawSensor) :
    updateSensorFrom t (createSensorFrom t clientRooms s) s =
      createSensorFrom t clientRooms s := by
  simp only [updateSensorFrom, createSensorFrom, updateHaParameters]
  split_ifs <;> rfl

theorem stepDevice_zero (t : Nat) (st : DeviceMap) (info : DeviceInfo)
    (h : info.id = 0) : stepDevice t st info = st := by
  unfold stepDevice
  simp [h]

theorem stepDevice_apply_ne (t : Nat) (st : DeviceMap) (info : DeviceInfo)
    (i : Nat) (h : i ≠ info.id) : stepDevice t st info i = st i := by
  unfold stepDevice
  split_ifs with h0
  · rfl
  · cases hq : st info.id <;> simp [hq, h]

theorem stepSensor_zero (t : Nat) (clientRooms : List RawRoom) (st : DeviceMap)
    (s : RawSensor) (h : s.id = 0) : stepSensor t clientRooms st s = st := by
  unfold stepSensor
  simp [h]

theorem stepSensor_apply_ne (t : Nat) (clientRooms : List RawRoom) (st : DeviceMap)
    (s : RawSensor) (i : Nat) (h : i ≠ s.id) : stepSensor t clientRooms st s i = st i := by
  unfold stepSensor
  split_ifs with h0
  · rfl
  · cases hq : st s.id <;> simp [hq, h]

/-- `_process_devices` leaves every id its loop does not touch alone. -/
theorem processDevicesM_untouched (t : Nat) (ds : List DeviceInfo)
    (st : DeviceMap) (i : Nat) (h : ∀ d ∈ ds, d.id = 0 ∨ i ≠ d.id) :
    processDevicesM t st ds i = st i := by
  induction ds generalizing st with
  | nil => rfl
  | cons d ds ih =>
      have hstep : stepDevice t st d i = st i := by
        rcases h d (List.mem_cons_self d ds) with h0 | hne
        · rw [stepDevice_zero t st d h0]
        · exact stepDevice_apply_ne t st d i hne
      calc processDevicesM t st (d :: ds) i
          = processDevicesM t (stepDevice t st d) ds i := rfl
        _ = stepDevice t st d i := ih _ (fun e he => h e (List.mem_cons_of_mem d he))
        _ = st i := hstep

/-- `_process_sensors` leaves every id its loop does not touch alone. -/
theorem processSensorsM_untouched (t : Nat) (clientRooms : List RawRoom)
    (ss : List RawSensor) (st : DeviceMap) (i : Nat)
    (h : ∀ s ∈ ss, s.id = 0 ∨ i ≠ s.id) :
    processSensorsM t clientRooms st ss i = st i := by
  induction ss generalizing st with
  | nil => rfl
  | cons s ss ih =>
      have hstep : stepSensor t clientRooms st s i = st i := by
        rcases h s (List.mem_cons_self s ss) with h0 | hne
        · rw [stepSensor_zero t clientRooms st s h0]
        · exact stepSensor_apply_ne t clientRooms st s i hne
      calc processSensorsM t clientRooms st (s :: ss) i
          = processSensorsM t clientRooms (stepSensor t clientRooms st s) ss i := rfl
        _ = stepSensor t clientRooms st s i := ih _ (fun e he => h e (List.mem_cons_of_mem s he))
        _ = st i := hstep

/-- When a device list contains exactly one record with id `d.id`
(nonzero), `_process_devices` acts at that id as the single create-or-
update step on the incoming state. -/
theorem processDevicesM_single (t : Nat) (st : DeviceMap)
    (l1 l2 : List DeviceInfo) (d : DeviceInfo) (hd : d.id ≠ 0)
    (h1 : ∀ e ∈ l1, e.id = 0 ∨ d.id ≠ e.id) (h2 : ∀ e ∈ l2, e.id = 0 ∨ d.id ≠ e.id) :
    processDevicesM t st (l1 ++ d :: l2) d.id =
      some (match st d.id with
            | some dev => updateDeviceFrom t dev d
            | none => createDeviceFrom t d) := by
  have hsplit : processDevicesM t st (l1 ++ d :: l2) =
      processDevicesM t (stepDevice t (processDevicesM t st l1) d) l2 := by
    unfold processDevicesM
    rw [List.foldl_append]
    rfl
  rw [hsplit, processDevicesM_untouched t l2 _ d.id h2]
  have hst1 : processDevicesM t st l1 d.id = st d.id :=
    processDevicesM_untouched t l1 st d.id h1
  unfold stepDevice
  rw [if_neg hd, hst1]
  cases hq : st d.id <;> simp [hq]

/-- Sensor-side analogue of `processDevicesM_single`. -/
theorem processSensorsM_single (t : Nat) (clientRooms : List RawRoom)
    (st : DeviceMap) (l1 l2 : List RawSensor) (s : RawSensor) (hs : s.id ≠ 0)
    (h1 : ∀ e ∈ l1, e.id = 0 ∨ s.id ≠ e.id) (h2 : ∀ e ∈ l2, e.id = 0 ∨ s.id ≠ e.id) :
    processSensorsM t clientRooms st (l1 ++ s :: l2) s.id =
      some (match st s.id with
            | some dev => updateSensorFrom t dev s
            | none => createSensorFrom t clientRooms s) := by
  have hsplit : processSensorsM t clientRooms st (l1 ++ s :: l2) =
      processSensorsM t clientRooms
        (stepSensor t clientRooms (processSensorsM t clientRooms st l1) s) l2 := by
    unfold processSensorsM
    rw [List.foldl_append]
    rfl
  rw [hsplit, processSensorsM_untouched t clientRooms l2 _ s.id h2]
  have hst1 : processSensorsM t clientRooms st l1 s.id = st s.id :=
    processSensorsM_untouched t clientRooms l1 st s.id h1
  unfold stepSensor
  rw [if_neg hs, hst1]
  cases hq : st s.id <;> simp [hq]

/-- Membership in the touched device ids. -/
theorem mem_deviceIdsOf (ds : List DeviceInfo) (i : Nat) :
    i ∈ deviceIdsOf ds ↔ ∃ d ∈ ds, d.id = i ∧ d.id ≠ 0 := by
  unfold deviceIdsOf
  simp only [List.mem_map, List.mem_filter]
  constructor
  · rintro ⟨d, ⟨hmem, hne⟩, rfl⟩
    exact ⟨d, hmem, rfl, by simpa using hne⟩
  · rintro ⟨d, hmem, rfl, hne⟩
    exact ⟨d, ⟨hmem, by simpa using hne⟩, rfl⟩

/-- Membership in the touched sensor ids. -/
theorem mem_sensorIdsOf (ss : List RawSensor) (i : Nat) :
    i ∈ sensorIdsOf ss ↔ ∃ s ∈ ss, s.id = i ∧ s.id ≠ 0 := by
  unfold sensorIdsOf
  simp only [List.mem_map, List.mem_filter]
  constructor
  · rintro ⟨s, ⟨hmem, hne⟩, rfl⟩
    exact ⟨s, hmem, rfl, by simpa using hne⟩
  · rintro ⟨s, hmem, rfl, hne⟩
    exact ⟨s, ⟨hmem, by simpa using hne⟩, rfl⟩

/-- Ids not listed in `deviceIdsOf` are untouched by every record. -/
theorem not_mem_deviceIdsOf (ds : List DeviceInfo) (i : Nat)
    (h : i ∉ deviceIdsOf ds) : ∀ d ∈ ds, d.id = 0 ∨ i ≠ d.id := by
  intro d hd
  by_cases h0 : d.id = 0
  · exact Or.inl h0
  · refine Or.inr (fun hie => h ?_)
    exact (mem_deviceIdsOf ds i).mpr ⟨d, hd, hie.symm, h0⟩

/-- Ids not listed in `sensorIdsOf` are untouched by every record. -/
theorem not_mem_sensorIdsOf (ss : List RawSensor) (i : Nat)
    (h : i ∉ sensorIdsOf ss) : ∀ s ∈ ss, s.id = 0 ∨ i ≠ s.id := by
  intro s hs
  by_cases h0 : s.id = 0
  · exact Or.inl h0
  · refine Or.inr (fun hie => h ?_)
    exact (mem_sensorIdsOf ss i).mpr ⟨s, hs, hie.symm, h0⟩

theorem deviceIdsOf_append (l1 l2 : List DeviceInfo) :
    deviceIdsOf (l1 ++ l2) = deviceIdsOf l1 ++ deviceIdsOf l2 := by
  unfold deviceIdsOf
  rw [List.filter_append, List.map_append]

theorem deviceIdsOf_cons (d : DeviceInfo) (l : List DeviceInfo) (h : d.id ≠ 0) :
    deviceIdsOf (d :: l) = d.id :: deviceIdsOf l := by
  unfold deviceIdsOf
  rw [List.filter_cons]
  simp [h]

theorem sensorIdsOf_append (l1 l2 : List RawSensor) :
    sensorIdsOf (l1 ++ l2) = sensorIdsOf l1 ++ sensorIdsOf l2 := by
  unfold sensorIdsOf
  rw [List.filter_append, List.map_append]

theorem sensorIdsOf_cons (s : RawSensor) (l : List RawSensor) (h : s.id ≠ 0) :
    sensorIdsOf (s :: l) = s.id :: sensorIdsOf l := by
  unfold sensorIdsOf
  rw [List.filter_cons]
  simp [h]

/-- C3: aggregation is idempotent. When the raw collections carry pairwise
distinct (nonzero) ids — as controller payloads do — running the
`_process_devices` + `_process_sensors` pass a second time over the same
input at the same poll instant leaves the device map exactly as after the
first pass; and, unconditionally, merging the same dict a second time into
an existing `CrestronDevice` via the in-place update path leaves that
device field-for-field unchanged. -/
theorem spec_c3_theorem (t : Nat) (clientRooms : List RawRoom) (st : DeviceMap)
    (ds : List DeviceInfo) (ss : List RawSensor)
    (h : (deviceIdsOf ds ++ sensorIdsOf ss).Nodup) :
    aggregateM t clientRooms (aggregateM t clientRooms st ds ss) ds ss =
        aggregateM t clientRooms st ds ss ∧
      (∀ dev info, updateDeviceFrom t (updateDeviceFrom t dev info) info =
        updateDeviceFrom t dev info) ∧
      (∀ dev s, updateSensorFrom t (updateSensorFrom t dev s) s =
        updateSensorFrom t dev s) := by
  refine ⟨?_, fun dev info => updateDeviceFrom_idem t dev info,
    fun dev s => updateSensorFrom_idem t dev s⟩
  funext i
  by_cases hds : i ∈ deviceIdsOf ds
  · obtain ⟨d, hdmem, hdid, hd0⟩ := (mem_deviceIdsOf ds i).mp hds
    subst hdid
    obtain ⟨l1, l2, hds_eq⟩ := List.append_of_mem hdmem
    subst hds_eq
    have h' := h
    rw [deviceIdsOf_append, deviceIdsOf_cons d l2 hd0] at h'
    obtain ⟨hAB, hC, hdisj2⟩ := List.nodup_append.mp h'
    obtain ⟨hA, hB, hdisjAB⟩ := List.nodup_append.mp hAB
    have hnl1 : d.id ∉ deviceIdsOf l1 :=
      fun hmem => hdisjAB hmem (List.mem_cons_self _ _)
    have hnl2 : d.id ∉ deviceIdsOf l2 := (List.nodup_cons.mp hB).1
    have hnss : d.id ∉ sensorIdsOf ss :=
      fun hmem => hdisj2 (List.mem_append_right _ (List.mem_cons_self _ _)) hmem
    have hul1 := not_mem_deviceIdsOf l1 d.id hnl1
    have hul2 := not_mem_deviceIdsOf l2 d.id hnl2
    have huss := not_mem_sensorIdsOf ss d.id hnss
    have hA1 : aggregateM t clientRooms st (l1 ++ d :: l2) ss d.id =
        some (match st d.id with
              | some dev => updateDeviceFrom t dev d
              | none => createDeviceFrom t d) := by
      calc aggregateM t clientRooms st (l1 ++ d :: l2) ss d.id
          = processSensorsM t clientRooms (processDevicesM t st (l1 ++ d :: l2)) ss d.id := rfl
        _ = processDevicesM t st (l1 ++ d :: l2) d.id :=
            processSensorsM_untouched t clientRooms ss _ d.id huss
        _ = _ := processDevicesM_single t st l1 l2 d hd0 hul1 hul2
    have hA2 : aggregateM t clientRooms
        (aggregateM t clientRooms st (l1 ++ d :: l2) ss) (l1 ++ d :: l2) ss d.id =
        some (match aggregateM t clientRooms st (l1 ++ d :: l2) ss d.id with
              | some dev => updateDeviceFrom t dev d
              | none => createDeviceFrom t d) := by
      calc aggregateM t clientRooms
            (aggregateM t clientRooms st (l1 ++ d :: l2) ss) (l1 ++ d :: l2) ss d.id
          = processSensorsM t clientRooms
              (processDevicesM t (aggregateM t clientRooms st (l1 ++ d :: l2) ss)
                (l1 ++ d :: l2)) ss d.id := rfl
        _ = processDevicesM t (aggregateM t clientRooms st (l1 ++ d :: l2) ss)
              (l1 ++ d :: l2) d.id :=
            processSensorsM_untouched t clientRooms ss _ d.id huss
        _ = _ := processDevicesM_single t _ l1 l2 d hd0 hul1 hul2
    rw [hA2, hA1]
    cases hq : st d.id <;> simp [updateDeviceFrom_idem, updateDeviceFrom_create]
  · by_cases hss : i ∈ sensorIdsOf ss
    · obtain ⟨s, hsmem, hsid, hs0⟩ := (mem_sensorIdsOf ss i).mp hss
      subst hsid
      obtain ⟨l1, l2, hss_eq⟩ := List.append_of_mem hsmem
      subst hss_eq
      have h' := h
      rw [sensorIdsOf_append, sensorIdsOf_cons s l2 hs0] at h'
      obtain ⟨hA, hBC, hdisjA⟩ := List.nodup_append.mp h'
      obtain ⟨hB, hC, hdisjBC⟩ := List.nodup_append.mp hBC
      have hnl1 : s.id ∉ sensorIdsOf l1 :=
        fun hmem => hdisjBC hmem (List.mem_cons_self _ _)
      have hnl2 : s.id ∉ sensorIdsOf l2 := (List.nodup_cons.mp hC).1
      have hul1 := not_mem_sensorIdsOf l1 s.id hnl1
      have hul2 := not_mem_sensorIdsOf l2 s.id hnl2
      have hudev := not_mem_deviceIdsOf ds s.id hds
      have hA1 : aggregateM t clientRooms st ds (l1 ++ s :: l2) s.id =
          some (match st s.id with
                | some dev => updateSensorFrom t dev s
                | none => createSensorFrom t clientRooms s) := by
        calc aggregateM t clientRooms st ds (l1 ++ s :: l2) s.id
            = processSensorsM t clientRooms (processDevicesM t st ds) (l1 ++ s :: l2) s.id := rfl
          _ = some (match processDevicesM t st ds s.id with
                    | some dev => updateSensorFrom t dev s
                    | none => createSensorFrom t clientRooms s) :=
              processSensorsM_single t clientRooms _ l1 l2 s hs0 hul1 hul2
          _ = _ := by rw [processDevicesM_untouched t ds st s.id hudev]
      have hA2 : aggregateM t clientRooms
          (aggregateM t clientRooms st ds (l1 ++ s :: l2)) ds (l1 ++ s :: l2) s.id =
          some (match aggregateM t clientRooms st ds (l1 ++ s :: l2) s.id with
                | some dev => updateSensorFrom t dev s
                | none => createSensorFrom t clientRooms s) := by
        calc aggregateM t clientRooms
              (aggregateM t clientRooms st ds (l1 ++ s :: l2)) ds (l1 ++ s :: l2) s.id
            = processSensorsM t clientRooms
                (processDevicesM t (aggregateM t clientRooms st ds (l1 ++ s :: l2)) ds)
                (l1 ++ s :: l2) s.id := rfl
          _ = some (match processDevicesM t
                      (aggregateM t clientRooms st ds (l1 ++ s :: l2)) ds s.id with
                    | some dev => updateSensorFrom t dev s
                    | none => createSensorFrom t clientRooms s) :=
              processSensorsM_single t clientRooms _ l1 l2 s hs0 hul1 hul2
          _ = _ := by
              rw [processDevicesM_untouched t ds
                (aggregateM t clientRooms st ds (l1 ++ s :: l2)) s.id hudev]
      rw [hA2, hA1]
      cases hq : st s.id <;> simp [updateSensorFrom_idem, updateSensorFrom_create]
    · have hudev := not_mem_deviceIdsOf ds i hds
      have husens := not_mem_sensorIdsOf ss i hss
      calc aggregateM t clientRooms (aggregateM t clientRooms st ds ss) ds ss i
          = processSensorsM t clientRooms
              (processDevicesM t (aggregateM t clientRooms st ds ss) ds) ss i := rfl
        _ = processDevicesM t (aggregateM t clientRooms st ds ss) ds i :=
            processSensorsM_untouched t clientRooms ss _ i husens
        _ = aggregateM t clientRooms st ds ss i :=
            processDevicesM_untouched t ds _ i hudev

/-- C3 (witness): a light dict and a door sensor with distinct ids,
aggregated twice into an empty map at poll instant 100, give the same map
as aggregating once. -/
theorem spec_c3_witness :
    aggregateM 100 []
        (aggregateM 100 [] (fun _ => none)
          [⟨1, dimmerStr, dimmerStr, none, ("Lamp".toList), none, [], 50, true, 0, onlineStr, some lightStr⟩]
          [⟨2, ("Door".toList), none, some doorSensorStr, none, some openStr, none, 0, none⟩])
        [⟨1, dimmerStr, dimmerStr, none, ("Lamp".toList), none, [], 50, true, 0, onlineStr, some lightStr⟩]
        [⟨2, ("Door".toList), none, some doorSensorStr, none, some openStr, none, 0, none⟩] =
      aggregateM 100 [] (fun _ => none)
        [⟨1, dimmerStr, dimmerStr, none, ("Lamp".toList), none, [], 50, true, 0, onlineStr, some lightStr⟩]
        [⟨2, ("Door".toList), none, some doorSensorStr, none, some openStr, none, 0, none⟩] :=
  (spec_c3_theorem 100 [] (fun _ => none)
    [⟨1, dimmerStr, dimmerStr, none, ("Lamp".toList), none, [], 50, true, 0, onlineStr, some lightStr⟩]
    [⟨2, ("Door".toList), none, some doorSensorStr, none, some openStr, none, 0, none⟩]
    (by decide)).1

end CrestronHome
